import Mathlib

/-!
Shallow embedding of the local-file-crud-mcp server (src/mcp_server.py):
the MCP message model, the two transports' dispatch logic, the stdio
session loop, and the seven filesystem capabilities.

Modelling conventions:
* Python `Optional` values become `Option`; a missing key in a JSON
  mapping is `none`.
* The OS filesystem is modelled as an association list of file paths to
  decoded text contents plus a list of directory paths.  Text-mode
  encode/decode is modelled as exact storage and retrieval (Python's
  universal-newline translation and OS-level permission errors are
  outside the model); every `raise` statement written in the source, and
  the TypeError raised when a `None` argument reaches a string or path
  operation, are modelled explicitly.
* Path strings are opaque: no normalisation is performed, `parentDir`
  and `baseName` split on the slash character, and absolute paths are
  formed by prefixing the working directory, mirroring
  `str(path.absolute())` on POSIX for already-relative inputs.
* The exact text of runtime exception messages raised inside the Python
  standard library (TypeError, IsADirectoryError, FileExistsError) is
  modelled by fixed constants; no claim depends on their wording.
-/

/-- JSON-RPC request id: a string or an integer (`Optional[Union[str, int]]`). -/
inductive RequestId where
  | str : String → RequestId
  | num : Int → RequestId
deriving DecidableEq

/-- The named arguments the dispatch code extracts from `params["arguments"]`
via `arguments.get(key)`: only these five keys are ever read. A `none`
field models a key absent from the arguments mapping. -/
structure Args where
  filepath : Option String
  content : Option String
  find : Option String
  replace : Option String
  dirpath : Option String
deriving DecidableEq

/-- The `params` mapping of a request, projected onto the keys the
dispatcher reads: `params["name"]` (absent when the key is missing) and
`params.get("arguments")`. -/
structure Params where
  name : Option String
  arguments : Option Args
deriving DecidableEq

/-- `MCPRequest` (pydantic model): jsonrpc, optional id, required method,
optional params. -/
structure MCPRequest where
  jsonrpc : String
  id : Option RequestId
  method : String
  params : Option Params
deriving DecidableEq

/-- A JSON-RPC error object `{code, message}`. -/
structure RpcError where
  code : Int
  message : String
deriving DecidableEq

/-- One property entry of a tool's inputSchema: the key and its
`{"type", "description"}` object. -/
structure PropSpec where
  key : String
  jsonType : String
  description : String
deriving DecidableEq

/-- A tool's `inputSchema` object. -/
structure InputSchema where
  jsonType : String
  properties : List PropSpec
  required : List String
deriving DecidableEq

/-- A tool descriptor `{name, description, inputSchema}`. -/
structure ToolDescriptor where
  name : String
  description : String
  inputSchema : InputSchema
deriving DecidableEq

/-- The fixed payload returned by `initialize`. -/
structure InitPayload where
  protocolVersion : String
  toolsListChanged : Bool
  serverName : String
  serverVersion : String
deriving DecidableEq

/-- The `name`/`type`/`size`/`modified` record built for each directory
entry by `list_files`. -/
structure FSItem where
  name : String
  itemType : String
  size : Option Nat
  modified : String
deriving DecidableEq

/-- The `data` payload shapes returned by the seven capabilities. -/
inductive FileData where
  | readData : String → Nat → String → FileData
  | writeData : String → Nat → FileData
  | appendData : String → Nat → FileData
  | updateNoChange : Nat → FileData
  | updateData : String → Nat → FileData
  | deleteData : String → FileData
  | listData : String → List FSItem → Nat → FileData
  | dirData : String → FileData
deriving DecidableEq

/-- The uniform Operation Result every capability returns:
`{success, message, data}`. -/
structure FileResult where
  success : Bool
  message : String
  data : Option FileData
deriving DecidableEq

/-- The `result` payloads a dispatcher can produce: the initialize
announcement, the tools catalog, or the `{"content":[{"type":"text",
"text": <serialized operation result>}]}` envelope (serialization by
`json.dumps` is modelled by carrying the structured operation result). -/
inductive RpcResult where
  | initR : InitPayload → RpcResult
  | toolsR : List ToolDescriptor → RpcResult
  | contentR : FileResult → RpcResult
deriving DecidableEq

/-- `MCPResponse` (pydantic model): jsonrpc, optional id, optional result,
optional error. -/
structure MCPResponse where
  jsonrpc : String
  id : Option RequestId
  result : Option RpcResult
  error : Option RpcError
deriving DecidableEq

/-- The modelled filesystem: decoded text contents of regular files,
the set of directories, the process working directory (for
`path.absolute()`), and a fixed modification-time string standing in
for `stat.st_mtime`, which the model does not track per file. -/
structure FS where
  cwd : String
  files : List (String × String)
  dirs : List String
  mtimeStr : String
deriving DecidableEq

/-- True when the path string starts with a slash. -/
def isAbsPath (p : String) : Bool :=
  match p.data with
  | [] => false
  | c :: _ => c == '/'

/-- `str(Path(p).absolute())`: an absolute path is returned unchanged, a
relative one is prefixed with the working directory. -/
def absolutePath (cwd p : String) : String :=
  if isAbsPath p then p else cwd ++ "/" ++ p

/-- Split a character list at every slash. -/
def splitSlashAux (acc : List Char) : List Char → List String
  | [] => [⟨acc.reverse⟩]
  | c :: t => if c == '/' then ⟨acc.reverse⟩ :: splitSlashAux [] t
              else splitSlashAux (c :: acc) t

/-- The slash-separated components of a path string (the behaviour of
splitting on a single-character separator: the empty string yields one
empty component). -/
def splitSlash (p : String) : List String :=
  splitSlashAux [] p.data

/-- `str(Path(p).parent)` on a slash-separated path string: everything
before the final component. -/
def parentDir (p : String) : String :=
  String.intercalate "/" ((splitSlash p).dropLast)

/-- The final component of a slash-separated path string (`item.name`). -/
def baseName (p : String) : String :=
  (splitSlash p).getLastD ""

/-- All component-wise non-empty prefixes of a path string, used to model
`mkdir(parents=True)` creating a directory together with its ancestors. -/
def componentPrefixes (p : String) : List String :=
  (List.range (splitSlash p).length).map
    (fun k => String.intercalate "/" ((splitSlash p).take (k + 1)))

/-- The successful effect of `Path(p).mkdir(parents=True, exist_ok=True)`
on the directory set: the target and all its ancestors now exist. -/
def mkdirAll (dirs : List String) (p : String) : List String :=
  componentPrefixes p ++ dirs

/-- The failure condition of `Path(q).mkdir(parents=True, exist_ok=True)`:
some slash-component prefix of `q` names an existing regular file, in
which case CPython raises FileExistsError (conflict at the final
component) or NotADirectoryError (conflict at a deeper component) and
creates nothing. -/
def mkdirConflict (fs : FS) (q : String) : Bool :=
  (componentPrefixes q).any
    (fun d => (fs.files.lookup d).isSome && !(fs.dirs.contains d))

/-- Store `c` at path `p`, replacing any existing entry. -/
def setFileEntry (files : List (String × String)) (p c : String) :
    List (String × String) :=
  (p, c) :: files.filter (fun e => !(e.1 == p))

/-- Modelled CPython message of the TypeError raised by `Path(None)`. -/
def pathNoneTypeMsg : String :=
  "argument should be a str or an os.PathLike object where __fspath__ returns a str, not <class 'NoneType'>"

/-- Modelled CPython message of the TypeError raised by `f.write(None)`. -/
def writeNoneTypeMsg : String :=
  "write() argument must be str, not None"

/-- Modelled CPython message of `str.replace` rejecting a `None` first
argument. -/
def replaceArg1TypeMsg : String :=
  "replace() argument 1 must be str"

/-- Modelled CPython message of `str.replace` rejecting a `None` second
argument. -/
def replaceArg2TypeMsg : String :=
  "replace() argument 2 must be str"

/-- Modelled message of the IsADirectoryError raised when opening or
unlinking a directory path. -/
def isADirErr (p : String) : String :=
  "[Errno 21] Is a directory: " ++ "'" ++ p ++ "'"

/-- Modelled message of the error raised by `mkdir(parents=True)` when a
component of the target exists as a regular file (FileExistsError at the
final component, NotADirectoryError at a deeper one; a single modelled
wording stands in for both — no claim depends on it). -/
def fileExistsErr (p : String) : String :=
  "[Errno 17] File exists: " ++ "'" ++ p ++ "'"

/-- Python `old in s` on character lists: some occurrence of `old` starts
at some position of `s` (the empty pattern is contained in every string). -/
def containsSub (old : List Char) : List Char → Bool
  | [] => old.isPrefixOf []
  | c :: t => old.isPrefixOf (c :: t) || containsSub old t

/-- Worker for Python `s.replace(old, new)` with non-empty `old`:
replace non-overlapping occurrences left to right.  On a match at the
head the matched characters (`c` and the next `old.length - 1`) are
consumed.  The fuel argument only bounds the recursion; every step
consumes at least one character, so fuel equal to the list's length is
never exhausted and the fuel-zero branch is unreachable from
`pyReplace`. -/
def pyReplaceAux (old new : List Char) : Nat → List Char → List Char
  | 0, s => s
  | _ + 1, [] => []
  | fuel + 1, c :: t =>
    if old.isPrefixOf (c :: t) then
      new ++ pyReplaceAux old new fuel (t.drop (old.length - 1))
    else
      c :: pyReplaceAux old new fuel t

/-- Python `s.replace(old, new)`: for the empty pattern, `new` is
interleaved before every character and at the end; otherwise
non-overlapping left-to-right replacement. -/
def pyReplace (s old new : String) : String :=
  if old.data = [] then
    ⟨new.data ++ s.data.flatMap (fun c => c :: new.data)⟩
  else
    ⟨pyReplaceAux old.data new.data s.data.length s.data⟩

/-- Worker for Python `s.count(old)` with non-empty `old`:
non-overlapping occurrences, scanned left to right, with the same fuel
convention as `pyReplaceAux`. -/
def pyCountAux (old : List Char) : Nat → List Char → Nat
  | 0, _ => 0
  | _ + 1, [] => 0
  | fuel + 1, c :: t =>
    if old.isPrefixOf (c :: t) then
      1 + pyCountAux old fuel (t.drop (old.length - 1))
    else
      pyCountAux old fuel t

/-- Python `s.count(old)`: the empty pattern is counted at every gap. -/
def pyCount (s old : String) : Nat :=
  if old.data = [] then s.length + 1
  else pyCountAux old.data s.data.length s.data

/-- `MCPServer.read_file`: check existence, open for reading, return the
content with its `len` and absolute path; every failure is caught and
reported as `success:false` with `data:null`. -/
def read_file (fs : FS) (filepath : Option String) : FileResult × FS :=
  match filepath with
  | none => (⟨false, "Failed to read file: " ++ pathNoneTypeMsg, none⟩, fs)
  | some fp =>
    match fs.files.lookup fp with
    | some content =>
      (⟨true, "File read successfully: " ++ fp,
        some (FileData.readData content content.length (absolutePath fs.cwd fp))⟩, fs)
    | none =>
      if fs.dirs.contains fp then
        (⟨false, "Failed to read file: " ++ isADirErr fp, none⟩, fs)
      else
        (⟨false, "Failed to read file: " ++ "File not found: " ++ fp, none⟩, fs)

/-- `MCPServer.write_file`: create the parent directories (failing when
a parent component exists as a regular file), open for writing
(truncating or creating the file), write the content; failures are
caught and reported as `success:false` with `data:null`.  With a `None`
content the file has already been truncated when the write raises. -/
def write_file (fs : FS) (filepath content : Option String) : FileResult × FS :=
  match filepath with
  | none => (⟨false, "Failed to write file: " ++ pathNoneTypeMsg, none⟩, fs)
  | some fp =>
    if mkdirConflict fs (parentDir fp) then
      (⟨false, "Failed to write file: " ++ fileExistsErr (parentDir fp), none⟩, fs)
    else
    let dirs1 := mkdirAll fs.dirs (parentDir fp)
    if dirs1.contains fp then
      (⟨false, "Failed to write file: " ++ isADirErr fp, none⟩,
       ⟨fs.cwd, fs.files, dirs1, fs.mtimeStr⟩)
    else
      match content with
      | none =>
        (⟨false, "Failed to write file: " ++ writeNoneTypeMsg, none⟩,
         ⟨fs.cwd, setFileEntry fs.files fp "", dirs1, fs.mtimeStr⟩)
      | some c =>
        (⟨true, "File written successfully: " ++ fp,
          some (FileData.writeData (absolutePath fs.cwd fp) c.length)⟩,
         ⟨fs.cwd, setFileEntry fs.files fp c, dirs1, fs.mtimeStr⟩)

/-- `MCPServer.append_file`: create the parent directories (failing when
a parent component exists as a regular file), open in append mode
(creating an empty file when absent), append the content. -/
def append_file (fs : FS) (filepath content : Option String) : FileResult × FS :=
  match filepath with
  | none => (⟨false, "Failed to append to file: " ++ pathNoneTypeMsg, none⟩, fs)
  | some fp =>
    if mkdirConflict fs (parentDir fp) then
      (⟨false, "Failed to append to file: " ++ fileExistsErr (parentDir fp), none⟩, fs)
    else
    let dirs1 := mkdirAll fs.dirs (parentDir fp)
    if dirs1.contains fp then
      (⟨false, "Failed to append to file: " ++ isADirErr fp, none⟩,
       ⟨fs.cwd, fs.files, dirs1, fs.mtimeStr⟩)
    else
      let oldC := (fs.files.lookup fp).getD ""
      match content with
      | none =>
        (⟨false, "Failed to append to file: " ++ writeNoneTypeMsg, none⟩,
         ⟨fs.cwd, setFileEntry fs.files fp oldC, dirs1, fs.mtimeStr⟩)
      | some c =>
        (⟨true, "Content appended successfully: " ++ fp,
          some (FileData.appendData (absolutePath fs.cwd fp) c.length)⟩,
         ⟨fs.cwd, setFileEntry fs.files fp (oldC ++ c), dirs1, fs.mtimeStr⟩)

/-- `MCPServer.update_file`: check existence, read, `content.replace(find,
replace)`; when nothing changed return `replacements: 0` without writing,
otherwise write back and report `original_content.count(find)`. -/
def update_file (fs : FS) (filepath find repl : Option String) : FileResult × FS :=
  match filepath with
  | none => (⟨false, "Failed to update file: " ++ pathNoneTypeMsg, none⟩, fs)
  | some fp =>
    match fs.files.lookup fp with
    | none =>
      if fs.dirs.contains fp then
        (⟨false, "Failed to update file: " ++ isADirErr fp, none⟩, fs)
      else
        (⟨false, "Failed to update file: " ++ "File not found: " ++ fp, none⟩, fs)
    | some content =>
      match find, repl with
      | none, _ =>
        (⟨false, "Failed to update file: " ++ replaceArg1TypeMsg, none⟩, fs)
      | some _, none =>
        (⟨false, "Failed to update file: " ++ replaceArg2TypeMsg, none⟩, fs)
      | some f, some rp =>
        let newContent := pyReplace content f rp
        if newContent = content then
          (⟨true, "No changes made: " ++ "'" ++ f ++ "'" ++ " not found in " ++ fp,
            some (FileData.updateNoChange 0)⟩, fs)
        else
          (⟨true, "File updated successfully: " ++ fp,
            some (FileData.updateData (absolutePath fs.cwd fp) (pyCount content f))⟩,
           ⟨fs.cwd, setFileEntry fs.files fp newContent, fs.dirs, fs.mtimeStr⟩)

/-- `MCPServer.delete_file`: check existence, `unlink`. -/
def delete_file (fs : FS) (filepath : Option String) : FileResult × FS :=
  match filepath with
  | none => (⟨false, "Failed to delete file: " ++ pathNoneTypeMsg, none⟩, fs)
  | some fp =>
    match fs.files.lookup fp with
    | some _ =>
      (⟨true, "File deleted successfully: " ++ fp,
        some (FileData.deleteData (absolutePath fs.cwd fp))⟩,
       ⟨fs.cwd, fs.files.filter (fun e => !(e.1 == fp)), fs.dirs, fs.mtimeStr⟩)
    | none =>
      if fs.dirs.contains fp then
        (⟨false, "Failed to delete file: " ++ isADirErr fp, none⟩, fs)
      else
        (⟨false, "Failed to delete file: " ++ "File not found: " ++ fp, none⟩, fs)

/-- `MCPServer.list_files`: check existence, require a directory, then
build one `{name, type, size, modified}` record per child entry
(regular files first, then sub-directories; `st_size` is the on-disk
byte size of the UTF-8 encoded content). -/
def list_files (fs : FS) (dirpath : Option String) : FileResult × FS :=
  match dirpath with
  | none => (⟨false, "Failed to list directory: " ++ pathNoneTypeMsg, none⟩, fs)
  | some dp =>
    if !((fs.files.lookup dp).isSome || fs.dirs.contains dp) then
      (⟨false, "Failed to list directory: " ++ "Directory not found: " ++ dp, none⟩, fs)
    else if !(fs.dirs.contains dp) then
      (⟨false, "Failed to list directory: " ++ "Not a directory: " ++ dp, none⟩, fs)
    else
      let fileItems := (fs.files.filter (fun e => parentDir e.1 == dp)).map
        (fun e => FSItem.mk (baseName e.1) "file" (some e.2.utf8ByteSize) fs.mtimeStr)
      let dirItems := (fs.dirs.filter (fun d => parentDir d == dp)).map
        (fun d => FSItem.mk (baseName d) "directory" none fs.mtimeStr)
      let items := fileItems ++ dirItems
      (⟨true, "Directory listed successfully: " ++ dp,
        some (FileData.listData (absolutePath fs.cwd dp) items items.length)⟩, fs)

/-- `MCPServer.create_directory`: `mkdir(parents=True, exist_ok=True)`;
a component of the target existing as a regular file raises. -/
def create_directory (fs : FS) (dirpath : Option String) : FileResult × FS :=
  match dirpath with
  | none => (⟨false, "Failed to create directory: " ++ pathNoneTypeMsg, none⟩, fs)
  | some dp =>
    if mkdirConflict fs dp then
      (⟨false, "Failed to create directory: " ++ fileExistsErr dp, none⟩, fs)
    else
      (⟨true, "Directory created successfully: " ++ dp,
        some (FileData.dirData (absolutePath fs.cwd dp))⟩,
       ⟨fs.cwd, fs.files, mkdirAll fs.dirs dp, fs.mtimeStr⟩)

/-- The tool catalog literal of the HTTP `list_tools` handler
(src/mcp_server.py lines 121-236), transcribed verbatim. -/
def httpToolsCatalog : List ToolDescriptor :=
  [⟨"read_file", "파일 내용을 읽어옵니다",
    ⟨"object", [⟨"filepath", "string", "읽을 파일의 경로"⟩], ["filepath"]⟩⟩,
   ⟨"write_file", "파일에 내용을 씁니다 (덮어쓰기)",
    ⟨"object", [⟨"filepath", "string", "쓸 파일의 경로"⟩,
                ⟨"content", "string", "파일 내용"⟩], ["filepath", "content"]⟩⟩,
   ⟨"append_file", "파일 끝에 내용을 추가합니다",
    ⟨"object", [⟨"filepath", "string", "추가할 파일의 경로"⟩,
                ⟨"content", "string", "추가할 내용"⟩], ["filepath", "content"]⟩⟩,
   ⟨"update_file", "파일 내용을 찾아 바꿉니다",
    ⟨"object", [⟨"filepath", "string", "수정할 파일의 경로"⟩,
                ⟨"find", "string", "찾을 문자열"⟩,
                ⟨"replace", "string", "바꿀 문자열"⟩], ["filepath", "find", "replace"]⟩⟩,
   ⟨"delete_file", "파일을 삭제합니다",
    ⟨"object", [⟨"filepath", "string", "삭제할 파일의 경로"⟩], ["filepath"]⟩⟩,
   ⟨"list_files", "디렉토리 내용을 조회합니다",
    ⟨"object", [⟨"dirpath", "string", "조회할 디렉토리 경로"⟩], ["dirpath"]⟩⟩,
   ⟨"create_directory", "새 디렉토리를 생성합니다",
    ⟨"object", [⟨"dirpath", "string", "생성할 디렉토리 경로"⟩], ["dirpath"]⟩⟩]

/-- The tool catalog literal of `MCPStdioServer.process_request`
(src/mcp_server.py lines 597-712), transcribed verbatim. -/
def stdioToolsCatalog : List ToolDescriptor :=
  [⟨"read_file", "파일 내용을 읽어옵니다",
    ⟨"object", [⟨"filepath", "string", "읽을 파일의 경로"⟩], ["filepath"]⟩⟩,
   ⟨"write_file", "파일에 내용을 씁니다 (덮어쓰기)",
    ⟨"object", [⟨"filepath", "string", "쓸 파일의 경로"⟩,
                ⟨"content", "string", "파일 내용"⟩], ["filepath", "content"]⟩⟩,
   ⟨"append_file", "파일 끝에 내용을 추가합니다",
    ⟨"object", [⟨"filepath", "string", "추가할 파일의 경로"⟩,
                ⟨"content", "string", "추가할 내용"⟩], ["filepath", "content"]⟩⟩,
   ⟨"update_file", "파일 내용을 찾아 바꿉니다",
    ⟨"object", [⟨"filepath", "string", "수정할 파일의 경로"⟩,
                ⟨"find", "string", "찾을 문자열"⟩,
                ⟨"replace", "string", "바꿀 문자열"⟩], ["filepath", "find", "replace"]⟩⟩,
   ⟨"delete_file", "파일을 삭제합니다",
    ⟨"object", [⟨"filepath", "string", "삭제할 파일의 경로"⟩], ["filepath"]⟩⟩,
   ⟨"list_files", "디렉토리 내용을 조회합니다",
    ⟨"object", [⟨"dirpath", "string", "조회할 디렉토리 경로"⟩], ["dirpath"]⟩⟩,
   ⟨"create_directory", "새 디렉토리를 생성합니다",
    ⟨"object", [⟨"dirpath", "string", "생성할 디렉토리 경로"⟩], ["dirpath"]⟩⟩]

/-- The initialize payload literal of the HTTP `initialize_mcp` handler
(lines 97-108). -/
def httpInitPayload : InitPayload :=
  ⟨"2024-11-05", true, "local-file-crud-mcp", "1.0.0"⟩

/-- The initialize payload literal of `process_request` (lines 583-594). -/
def stdioInitPayload : InitPayload :=
  ⟨"2024-11-05", true, "local-file-crud-mcp", "1.0.0"⟩

/-- Arguments mapping with every read key absent: `params.get("arguments", {})`
followed by `.get(key)` yields `None` for each key. -/
def emptyArgs : Args := ⟨none, none, none, none, none⟩

/-- The if/elif tool-name chain of the HTTP `call_tool` handler (lines
260-285): exact-name lookup, invoking the matching capability with the
extracted named arguments; an unknown name raises
`ValueError(f"Unknown tool: {tool_name}")`. -/
def httpToolDispatch (fs : FS) (toolName : String) (a : Args) :
    Except String (FileResult × FS) :=
  if toolName = "read_file" then Except.ok (read_file fs a.filepath)
  else if toolName = "write_file" then Except.ok (write_file fs a.filepath a.content)
  else if toolName = "append_file" then Except.ok (append_file fs a.filepath a.content)
  else if toolName = "update_file" then Except.ok (update_file fs a.filepath a.find a.replace)
  else if toolName = "delete_file" then Except.ok (delete_file fs a.filepath)
  else if toolName = "list_files" then Except.ok (list_files fs a.dirpath)
  else if toolName = "create_directory" then Except.ok (create_directory fs a.dirpath)
  else Except.error ("Unknown tool: " ++ toolName)

/-- The if/elif tool-name chain of `process_request`'s `tools/call`
branch (lines 726-751), routing to the same `MCPServer` capabilities. -/
def stdioToolDispatch (fs : FS) (toolName : String) (a : Args) :
    Except String (FileResult × FS) :=
  if toolName = "read_file" then Except.ok (read_file fs a.filepath)
  else if toolName = "write_file" then Except.ok (write_file fs a.filepath a.content)
  else if toolName = "append_file" then Except.ok (append_file fs a.filepath a.content)
  else if toolName = "update_file" then Except.ok (update_file fs a.filepath a.find a.replace)
  else if toolName = "delete_file" then Except.ok (delete_file fs a.filepath)
  else if toolName = "list_files" then Except.ok (list_files fs a.dirpath)
  else if toolName = "create_directory" then Except.ok (create_directory fs a.dirpath)
  else Except.error ("Unknown tool: " ++ toolName)

/-- The try-block body of the HTTP `call_tool` handler: a missing
`params` or missing `"name"` key raises `ValueError("Tool name is
required")`; otherwise the tool-name chain runs with
`params.get("arguments", {})`. -/
def httpCallToolCore (fs : FS) (params : Option Params) :
    Except String (FileResult × FS) :=
  match params with
  | none => Except.error "Tool name is required"
  | some p =>
    match p.name with
    | none => Except.error "Tool name is required"
    | some toolName => httpToolDispatch fs toolName (p.arguments.getD emptyArgs)

/-- The try-block body of `process_request`'s `tools/call` branch. -/
def stdioCallToolCore (fs : FS) (params : Option Params) :
    Except String (FileResult × FS) :=
  match params with
  | none => Except.error "Tool name is required"
  | some p =>
    match p.name with
    | none => Except.error "Tool name is required"
    | some toolName => stdioToolDispatch fs toolName (p.arguments.getD emptyArgs)

/-- HTTP `POST /mcp/initialize` handler (`initialize_mcp`, lines 91-115):
returns the fixed announcement, echoing the request id verbatim on both
its success and its error path. -/
def httpInitialize (r : MCPRequest) : MCPResponse :=
  ⟨"2.0", r.id, some (RpcResult.initR httpInitPayload), none⟩

/-- HTTP `POST /mcp/tools/list` handler (`list_tools`, lines 117-247):
returns the catalog, substituting id `0` when the request id is absent. -/
def httpListTools (r : MCPRequest) : MCPResponse :=
  ⟨"2.0", some (r.id.getD (RequestId.num 0)),
   some (RpcResult.toolsR httpToolsCatalog), none⟩

/-- HTTP `POST /mcp/tools/call` handler (`call_tool`, lines 249-297):
wraps the operation result into the `result.content` envelope; any
exception raised in the try block is caught and converted into the
error object `{code: -1, message: str(e)}`; the id substitutes `0` when
absent on both paths. -/
def httpCallTool (r : MCPRequest) (fs : FS) : MCPResponse × FS :=
  match httpCallToolCore fs r.params with
  | Except.ok (res, fs') =>
    (⟨"2.0", some (r.id.getD (RequestId.num 0)),
      some (RpcResult.contentR res), none⟩, fs')
  | Except.error msg =>
    (⟨"2.0", some (r.id.getD (RequestId.num 0)), none, some ⟨-1, msg⟩⟩, fs)

/-- `MCPStdioServer.process_request` (lines 576-768): route on the exact
method name; unknown methods get error `-32601`; any exception escaping
the routing logic is caught by the enclosing try and converted into the
error object `{code: -1, message: str(e)}`; every branch substitutes id
`0` when the request id is absent. -/
def process_request (r : MCPRequest) (fs : FS) : MCPResponse × FS :=
  if r.method = "initialize" then
    (⟨"2.0", some (r.id.getD (RequestId.num 0)),
      some (RpcResult.initR stdioInitPayload), none⟩, fs)
  else if r.method = "tools/list" then
    (⟨"2.0", some (r.id.getD (RequestId.num 0)),
      some (RpcResult.toolsR stdioToolsCatalog), none⟩, fs)
  else if r.method = "tools/call" then
    match stdioCallToolCore fs r.params with
    | Except.ok (res, fs') =>
      (⟨"2.0", some (r.id.getD (RequestId.num 0)),
        some (RpcResult.contentR res), none⟩, fs')
    | Except.error msg =>
      (⟨"2.0", some (r.id.getD (RequestId.num 0)), none, some ⟨-1, msg⟩⟩, fs)
  else
    (⟨"2.0", some (r.id.getD (RequestId.num 0)), none,
      some ⟨-32601, "Method not found: " ++ r.method⟩⟩, fs)

/-- What one stdio input line parses to, as far as the loop inspects it:
empty after stripping, invalid JSON (`json.JSONDecodeError`), JSON that
fails `MCPRequest(**data)` validation because the required `method`
field is missing, or a validated request. -/
inductive LineContent where
  | empty : LineContent
  | badJson : LineContent
  | noMethod : LineContent
  | request : MCPRequest → LineContent
deriving DecidableEq

/-- One event delivered to the stdio loop's per-iteration try block: a
line obtained from `sys.stdin.readline`, or an exception raised at the
transport boundary itself (e.g. `readline` failing on input that is not
valid UTF-8); end-of-stream is the end of the event list. -/
inductive StdinEvent where
  | line : LineContent → StdinEvent
  | readError : StdinEvent
deriving DecidableEq

/-- The response line written by the stdio loop (lines 555-563): the id
substitutes `0` when absent, `result` is included when present,
otherwise `error` when present. -/
structure WireResponse where
  id : RequestId
  result : Option RpcResult
  error : Option RpcError
deriving DecidableEq

/-- Build the wire response object the loop serializes for a processed
request. -/
def wireOf (r : MCPRequest) (resp : MCPResponse) : WireResponse :=
  ⟨r.id.getD (RequestId.num 0), resp.result,
   match resp.result with
   | some _ => none
   | none => resp.error⟩

/-- Outcome of a stdio session: the response lines written, whether the
loop exited through end-of-stream (`true`) or through the per-iteration
exception handler's `break` (`false`), and the final filesystem. -/
structure StdioResult where
  outputs : List WireResponse
  eofExit : Bool
  fs : FS
deriving DecidableEq

/-- `MCPStdioServer.handle_stdio` (lines 506-574) over a finite event
stream: end-of-stream breaks the loop normally; an empty, non-JSON or
method-less line is logged and skipped with no output; a validated
request is dispatched and exactly one response line is written; an
exception reaching the per-iteration handler is logged and `break`s the
loop without writing anything. -/
def handle_stdio : List StdinEvent → FS → StdioResult
  | [], fs => ⟨[], true, fs⟩
  | StdinEvent.readError :: _, fs => ⟨[], false, fs⟩
  | StdinEvent.line LineContent.empty :: rest, fs => handle_stdio rest fs
  | StdinEvent.line LineContent.badJson :: rest, fs => handle_stdio rest fs
  | StdinEvent.line LineContent.noMethod :: rest, fs => handle_stdio rest fs
  | StdinEvent.line (LineContent.request r) :: rest, fs =>
    let pr := process_request r fs
    let tail := handle_stdio rest pr.2
    ⟨wireOf r pr.1 :: tail.outputs, tail.eofExit, tail.fs⟩

/-- Replace the method field of a request, used to state transport
correspondence. -/
def withMethod (r : MCPRequest) (m : String) : MCPRequest :=
  ⟨r.jsonrpc, r.id, m, r.params⟩

/-- Modelled from the spec: the length of a content string after the
UTF-8 encoding the file layer applies (`encoding='utf-8'`), i.e. its
on-disk byte count. Stated only to compare against the `size` field the
code computes with `len(content)`. -/
def encodedLength (c : String) : Nat := c.utf8ByteSize

/-- A concrete small filesystem used by closed witness statements. -/
def fs0 : FS := ⟨"/home/user", [], [], "0.0"⟩

/-- The claim vocabulary for a `tools/call` arguments mapping that lacks
at least one required key of the named tool, per the advertised
`required` lists. -/
def requiredMissing (t : String) (a : Args) : Prop :=
  (t = "read_file" ∧ a.filepath = none)
  ∨ (t = "write_file" ∧ (a.filepath = none ∨ a.content = none))
  ∨ (t = "append_file" ∧ (a.filepath = none ∨ a.content = none))
  ∨ (t = "update_file" ∧ (a.filepath = none ∨ a.find = none ∨ a.replace = none))
  ∨ (t = "delete_file" ∧ a.filepath = none)
  ∨ (t = "list_files" ∧ a.dirpath = none)
  ∨ (t = "create_directory" ∧ a.dirpath = none)

theorem containsSub_nil (s : List Char) : containsSub [] s = true := by
  cases s <;> simp [containsSub, List.isPrefixOf]

theorem pyReplaceAux_self_of_not_contains (old new : List Char) (fuel : Nat)
    (s : List Char) (h : containsSub old s = false) :
    pyReplaceAux old new fuel s = s := by
  induction fuel generalizing s with
  | zero => rfl
  | succ n ih =>
    cases s with
    | nil => rfl
    | cons c t =>
      have h' : old.isPrefixOf (c :: t) = false ∧ containsSub old t = false := by
        simpa [containsSub, Bool.or_eq_false_iff] using h
      simp [pyReplaceAux, h'.1, ih t h'.2]

theorem pyReplace_self_of_not_contains (s old new : String)
    (h : containsSub old.data s.data = false) : pyReplace s old new = s := by
  have hne : ¬ (old.data = []) := by
    intro he
    rw [he, containsSub_nil] at h
    exact Bool.noConfusion h
  unfold pyReplace
  rw [if_neg hne, pyReplaceAux_self_of_not_contains _ _ _ _ h]

theorem lookup_setFileEntry (files : List (String × String)) (p c : String) :
    List.lookup p (setFileEntry files p c) = some c := by
  simp [setFileEntry, List.lookup]

theorem read_file_missing (fs : FS) :
    (read_file fs none).1.success = false ∧ (read_file fs none).1.data = none :=
  ⟨rfl, rfl⟩

theorem write_file_missing (fs : FS) (fp? c? : Option String)
    (h : fp? = none ∨ c? = none) :
    (write_file fs fp? c?).1.success = false ∧ (write_file fs fp? c?).1.data = none := by
  rcases h with h | h
  · subst h; exact ⟨rfl, rfl⟩
  · subst h
    cases fp? with
    | none => exact ⟨rfl, rfl⟩
    | some fp =>
      by_cases hconf : mkdirConflict fs (parentDir fp) = true
      · simp [write_file, hconf]
      · by_cases hd : fp ∈ mkdirAll fs.dirs (parentDir fp) <;>
          simp [write_file, hconf, hd]

theorem append_file_missing (fs : FS) (fp? c? : Option String)
    (h : fp? = none ∨ c? = none) :
    (append_file fs fp? c?).1.success = false ∧ (append_file fs fp? c?).1.data = none := by
  rcases h with h | h
  · subst h; exact ⟨rfl, rfl⟩
  · subst h
    cases fp? with
    | none => exact ⟨rfl, rfl⟩
    | some fp =>
      by_cases hconf : mkdirConflict fs (parentDir fp) = true
      · simp [append_file, hconf]
      · by_cases hd : fp ∈ mkdirAll fs.dirs (parentDir fp) <;>
          simp [append_file, hconf, hd]

theorem update_file_missing (fs : FS) (fp? f? rp? : Option String)
    (h : fp? = none ∨ f? = none ∨ rp? = none) :
    (update_file fs fp? f? rp?).1.success = false
  ∧ (update_file fs fp? f? rp?).1.data = none := by
  cases fp? with
  | none => exact ⟨rfl, rfl⟩
  | some fp =>
    cases hl : fs.files.lookup fp with
    | none =>
      by_cases hd : fp ∈ fs.dirs <;> simp [update_file, hl, hd]
    | some content =>
      rcases h with h | h | h
      · simp at h
      · subst h; simp [update_file, hl]
      · subst h
        cases f? with
        | none => simp [update_file, hl]
        | some f => simp [update_file, hl]

theorem delete_file_missing (fs : FS) :
    (delete_file fs none).1.success = false ∧ (delete_file fs none).1.data = none :=
  ⟨rfl, rfl⟩

theorem list_files_missing (fs : FS) :
    (list_files fs none).1.success = false ∧ (list_files fs none).1.data = none :=
  ⟨rfl, rfl⟩

theorem create_directory_missing (fs : FS) :
    (create_directory fs none).1.success = false
  ∧ (create_directory fs none).1.data = none :=
  ⟨rfl, rfl⟩

/-- C1 counterexample: an exception reaching the stdio loop's
per-iteration handler (modelled by a failing read) makes the loop emit
no response at all and terminate, so the session does not convert such
an exception to a code `-1` response, and end-of-stream is not the only
way the loop terminates. -/
theorem stdio_exception_terminates_loop_cex :
    (handle_stdio [StdinEvent.readError] fs0).outputs = []
  ∧ (handle_stdio [StdinEvent.readError] fs0).eofExit = false := ⟨rfl, rfl⟩

/-- C1 (amended): exceptions escaping the routing logic are caught
inside `process_request` itself and converted to `-1` error responses —
every request line yields exactly one response line and the session
continues (illustrated by the dispatch failure of a `tools/call`
without params, wired as a `-1` error) — but an exception reaching the
stdio loop's own per-line handler is logged and terminates the loop
without emitting any response; end-of-stream also terminates the
loop. -/
theorem stdio_exception_boundary_behaviour (r : MCPRequest)
    (rest : List StdinEvent) (fs : FS) :
    handle_stdio (StdinEvent.line (LineContent.request r) :: rest) fs
      = ⟨wireOf r (process_request r fs).1 ::
           (handle_stdio rest (process_request r fs).2).outputs,
         (handle_stdio rest (process_request r fs).2).eofExit,
         (handle_stdio rest (process_request r fs).2).fs⟩
  ∧ handle_stdio (StdinEvent.readError :: rest) fs = ⟨[], false, fs⟩
  ∧ (handle_stdio [] fs).eofExit = true
  ∧ (wireOf ⟨"2.0", none, "tools/call", none⟩
       (process_request ⟨"2.0", none, "tools/call", none⟩ fs).1).error
      = some ⟨-1, "Tool name is required"⟩ := ⟨rfl, rfl, rfl, rfl⟩

/-- C2 counterexample: on a request whose id is absent, the HTTP
initialize handler echoes the absent id verbatim while the stdio
dispatcher substitutes `0`, so the two transports do not produce the
same response for the `initialize` method. -/
theorem http_stdio_transport_divergence_cex :
    httpInitialize ⟨"2.0", none, "initialize", none⟩
      ≠ (process_request ⟨"2.0", none, "initialize", none⟩ fs0).1 := by decide

/-- C2 (amended): the `tools/list` and `tools/call` HTTP handlers
produce exactly the stdio dispatcher's response (and final state) for a
request with the corresponding method; the `initialize` handlers agree
whenever the request id is present, and differ only in the id
substituted when it is absent. -/
theorem http_stdio_dispatch_agreement (r : MCPRequest) (fs : FS) :
    (httpListTools r, fs) = process_request (withMethod r "tools/list") fs
  ∧ httpCallTool r fs = process_request (withMethod r "tools/call") fs
  ∧ (r.id.isSome = true →
      httpInitialize r = (process_request (withMethod r "initialize") fs).1) := by
  refine ⟨rfl, rfl, ?_⟩
  intro h
  obtain ⟨v, hv⟩ := Option.isSome_iff_exists.mp h
  simp [httpInitialize, process_request, withMethod, hv, httpInitPayload,
    stdioInitPayload]

/-- C2 witness: the agreement instantiated at a request carrying id 5. -/
theorem http_stdio_dispatch_agreement_witness :
    (⟨"2.0", some (RequestId.num 5), "demo", none⟩ : MCPRequest).id.isSome = true
  ∧ httpInitialize ⟨"2.0", some (RequestId.num 5), "demo", none⟩
      = (process_request
          (withMethod ⟨"2.0", some (RequestId.num 5), "demo", none⟩ "initialize") fs0).1 :=
  ⟨rfl, (http_stdio_dispatch_agreement ⟨"2.0", some (RequestId.num 5), "demo", none⟩
    fs0).2.2 rfl⟩

/-- C3: every response carries the described id: the `tools/list` and
`tools/call` handlers substitute `0` (not null) when the request id is
absent, the HTTP `initialize` handler echoes the request id verbatim on
every path including its error path, and every stdio dispatcher
response substitutes `0` when the id is absent. -/
theorem response_id_field_rule (r : MCPRequest) (fs : FS) :
    (httpListTools r).id = some (r.id.getD (RequestId.num 0))
  ∧ ((httpCallTool r fs).1).id = some (r.id.getD (RequestId.num 0))
  ∧ (httpInitialize r).id = r.id
  ∧ ((process_request r fs).1).id = some (r.id.getD (RequestId.num 0)) := by
  refine ⟨rfl, ?_, rfl, ?_⟩
  · cases hc : httpCallToolCore fs r.params with
    | ok v => cases v with | mk res fs2 => simp [httpCallTool, hc]
    | error msg => simp [httpCallTool, hc]
  · unfold process_request
    split
    · rfl
    · split
      · rfl
      · split
        · cases hc : stdioCallToolCore fs r.params with
          | ok v => cases v with | mk res fs2 => simp [hc]
          | error msg => simp [hc]
        · rfl

/-- C4 counterexample: writing the one-character content `"가"` stores
size `1` (Python `len`, counting code points) in both the write and the
subsequent read result, while the UTF-8 encoded length of the content
is `3`; moreover a path naming an existing directory, or a path one of
whose parent components names an existing regular file, makes the write
fail, so the round-trip property does not hold for every path. -/
theorem write_size_not_encoded_length_cex :
    (write_file fs0 (some "t.txt") (some "가")).1.data
      = some (FileData.writeData "/home/user/t.txt" 1)
  ∧ (read_file (write_file fs0 (some "t.txt") (some "가")).2 (some "t.txt")).1.data
      = some (FileData.readData "가" 1 "/home/user/t.txt")
  ∧ encodedLength "가" = 3
  ∧ (write_file ⟨"/home/user", [], ["data"], "0.0"⟩ (some "data") (some "x")).1.success
      = false
  ∧ (write_file ⟨"/home/user", [("notes", "x")], [], "0.0"⟩
        (some "notes/a.txt") (some "hi")).1.success = false := by decide

/-- C4 (amended): for every path P such that no component of P's parent
path names an existing regular file (so the implicit
`mkdir(parents=True)` succeeds) and P does not denote an existing
directory (after that creation of P's parents), and every content C,
`write_file` then `read_file` yields success with `data.content`
exactly C; the `size` fields of both results equal C's character
(code-point) count — which coincides with the UTF-8 encoded length only
for contents whose characters are all one byte long. -/
theorem write_read_roundtrip (fs : FS) (p c : String)
    (hpar : mkdirConflict fs (parentDir p) = false)
    (hdir : (mkdirAll fs.dirs (parentDir p)).contains p = false) :
    (write_file fs (some p) (some c)).1
      = ⟨true, "File written successfully: " ++ p,
         some (FileData.writeData (absolutePath fs.cwd p) c.length)⟩
  ∧ (read_file (write_file fs (some p) (some c)).2 (some p)).1
      = ⟨true, "File read successfully: " ++ p,
         some (FileData.readData c c.length (absolutePath fs.cwd p))⟩ := by
  have hdir' : ¬ (p ∈ mkdirAll fs.dirs (parentDir p)) := by
    simpa using hdir
  have hw : write_file fs (some p) (some c)
      = (⟨true, "File written successfully: " ++ p,
          some (FileData.writeData (absolutePath fs.cwd p) c.length)⟩,
         ⟨fs.cwd, setFileEntry fs.files p c, mkdirAll fs.dirs (parentDir p),
          fs.mtimeStr⟩) := by
    unfold write_file
    simp [hpar, hdir']
  constructor
  · rw [hw]
  · rw [hw]
    unfold read_file
    simp [lookup_setFileEntry]

/-- C4 witness: the round-trip at a concrete nested path and content. -/
theorem write_read_roundtrip_witness :
    mkdirConflict fs0 (parentDir "notes/a.txt") = false
  ∧ (mkdirAll fs0.dirs (parentDir "notes/a.txt")).contains "notes/a.txt" = false
  ∧ ((write_file fs0 (some "notes/a.txt") (some "hi")).1
      = ⟨true, "File written successfully: " ++ "notes/a.txt",
         some (FileData.writeData (absolutePath fs0.cwd "notes/a.txt") "hi".length)⟩
  ∧ (read_file (write_file fs0 (some "notes/a.txt") (some "hi")).2
        (some "notes/a.txt")).1
      = ⟨true, "File read successfully: " ++ "notes/a.txt",
         some (FileData.readData "hi" "hi".length (absolutePath fs0.cwd "notes/a.txt"))⟩) :=
  ⟨by decide, by decide,
   write_read_roundtrip fs0 "notes/a.txt" "hi" (by decide) (by decide)⟩

/-- C5: a `tools/call` naming a tool outside the seven registered names
produces, identically on the stdio and HTTP paths, the JSON-RPC error
`{code: -1, message: "Unknown tool: <name>"}` (the `ValueError` raised
by the dispatch chain, caught and converted by the enclosing handler). -/
theorem unknown_tool_generic_error (r : MCPRequest) (fs : FS) (t : String)
    (a : Option Args)
    (hm : r.method = "tools/call") (hp : r.params = some ⟨some t, a⟩)
    (h1 : t ≠ "read_file") (h2 : t ≠ "write_file") (h3 : t ≠ "append_file")
    (h4 : t ≠ "update_file") (h5 : t ≠ "delete_file") (h6 : t ≠ "list_files")
    (h7 : t ≠ "create_directory") :
    process_request r fs
      = (⟨"2.0", some (r.id.getD (RequestId.num 0)), none,
          some ⟨-1, "Unknown tool: " ++ t⟩⟩, fs)
  ∧ httpCallTool r fs
      = (⟨"2.0", some (r.id.getD (RequestId.num 0)), none,
          some ⟨-1, "Unknown tool: " ++ t⟩⟩, fs) := by
  obtain ⟨j, i, m, ps⟩ := r
  replace hm : m = "tools/call" := hm
  replace hp : ps = some ⟨some t, a⟩ := hp
  subst hm
  subst hp
  constructor
  · simp [process_request, stdioCallToolCore, stdioToolDispatch,
      h1, h2, h3, h4, h5, h6, h7]
  · simp [httpCallTool, httpCallToolCore, httpToolDispatch,
      h1, h2, h3, h4, h5, h6, h7]

/-- C5 witness: the unknown tool `"magic_wand"` at id 1. -/
theorem unknown_tool_generic_error_witness :
    process_request ⟨"2.0", some (RequestId.num 1), "tools/call",
        some ⟨some "magic_wand", none⟩⟩ fs0
      = (⟨"2.0", some (RequestId.num 1), none,
          some ⟨-1, "Unknown tool: " ++ "magic_wand"⟩⟩, fs0) :=
  (unknown_tool_generic_error _ fs0 "magic_wand" none rfl rfl (by decide)
    (by decide) (by decide) (by decide) (by decide) (by decide) (by decide)).1

/-- C6: every request with method `tools/list` — regardless of its
params and of the filesystem state — receives exactly the seven tool
descriptors, verbatim and in the fixed order, identically on both
transports (their two catalog literals coincide). -/
theorem tools_list_fixed_catalog (r : MCPRequest) (fs : FS)
    (hm : r.method = "tools/list") :
    process_request r fs
      = (⟨"2.0", some (r.id.getD (RequestId.num 0)),
          some (RpcResult.toolsR stdioToolsCatalog), none⟩, fs)
  ∧ httpListTools r
      = ⟨"2.0", some (r.id.getD (RequestId.num 0)),
         some (RpcResult.toolsR httpToolsCatalog), none⟩
  ∧ httpToolsCatalog = stdioToolsCatalog
  ∧ stdioToolsCatalog.map ToolDescriptor.name
      = ["read_file", "write_file", "append_file", "update_file",
         "delete_file", "list_files", "create_directory"]
  ∧ stdioToolsCatalog.length = 7 := by
  refine ⟨?_, rfl, rfl, by decide, rfl⟩
  obtain ⟨j, i, m, ps⟩ := r
  replace hm : m = "tools/list" := hm
  subst hm
  rfl

/-- C6 witness: the catalog at id 7 with populated params. -/
theorem tools_list_fixed_catalog_witness :
    process_request ⟨"2.0", some (RequestId.num 7), "tools/list",
        some ⟨some "ignored", some emptyArgs⟩⟩ fs0
      = (⟨"2.0", some (RequestId.num 7),
          some (RpcResult.toolsR stdioToolsCatalog), none⟩, fs0) :=
  (tools_list_fixed_catalog _ fs0 rfl).1

/-- C7: on an existing file whose content does not contain the `find`
string, `update_file` returns `success:true` with `data.replacements`
equal to `0` and leaves the filesystem — in particular the file's
content — entirely unchanged (no write is performed). -/
theorem update_find_absent_no_change (fs : FS) (fp f rp c : String)
    (hc : fs.files.lookup fp = some c)
    (hf : containsSub f.data c.data = false) :
    update_file fs (some fp) (some f) (some rp)
      = (⟨true, "No changes made: " ++ "'" ++ f ++ "'" ++ " not found in " ++ fp,
          some (FileData.updateNoChange 0)⟩, fs) := by
  have hr : pyReplace c f rp = c := pyReplace_self_of_not_contains c f rp hf
  simp [update_file, hc, hr]

/-- C7 witness: searching `"xyz"` in a file containing `"hello"`. -/
theorem update_find_absent_no_change_witness :
    update_file ⟨"/home/user", [("a.txt", "hello")], [], "0.0"⟩
        (some "a.txt") (some "xyz") (some "q")
      = (⟨true, "No changes made: " ++ "'" ++ "xyz" ++ "'" ++ " not found in " ++ "a.txt",
          some (FileData.updateNoChange 0)⟩,
         ⟨"/home/user", [("a.txt", "hello")], [], "0.0"⟩) :=
  update_find_absent_no_change ⟨"/home/user", [("a.txt", "hello")], [], "0.0"⟩
    "a.txt" "xyz" "q" "hello" (by decide) (by decide)

/-- C8: a stdio input line that is invalid JSON, or that decodes but
fails to populate the required `method` field, is skipped: the run over
the remaining events is unchanged, so no response line is emitted for
it and the session continues rather than terminating. -/
theorem malformed_stdio_line_skipped (rest : List StdinEvent) (fs : FS) :
    handle_stdio (StdinEvent.line LineContent.badJson :: rest) fs
      = handle_stdio rest fs
  ∧ handle_stdio (StdinEvent.line LineContent.noMethod :: rest) fs
      = handle_stdio rest fs := ⟨rfl, rfl⟩

/-- C9: a request whose method is none of `initialize`, `tools/list`,
`tools/call` receives the error `{code: -32601, message: "Method not
found: <method>"}` and the response carries no result field. -/
theorem unknown_method_error_response (r : MCPRequest) (fs : FS)
    (h1 : r.method ≠ "initialize") (h2 : r.method ≠ "tools/list")
    (h3 : r.method ≠ "tools/call") :
    process_request r fs
      = (⟨"2.0", some (r.id.getD (RequestId.num 0)), none,
          some ⟨-32601, "Method not found: " ++ r.method⟩⟩, fs) := by
  unfold process_request
  simp [h1, h2, h3]

/-- C9 witness: the unregistered method `"resources/list"`. -/
theorem unknown_method_error_response_witness :
    process_request ⟨"2.0", some (RequestId.str "a"), "resources/list", none⟩ fs0
      = (⟨"2.0", some (RequestId.str "a"), none,
          some ⟨-32601, "Method not found: " ++ "resources/list"⟩⟩, fs0) :=
  unknown_method_error_response _ fs0 (by decide) (by decide) (by decide)

/-- C10: a `tools/call` naming a registered tool whose arguments
mapping lacks a required key passes the absent value (`None`) through
to the capability, which catches the failure inside its own boundary
and returns `{success: false, data: null}`; the dispatcher wraps this
as a successful JSON-RPC `result.content` envelope — no protocol-level
error is produced, and the HTTP path returns the same response. -/
theorem missing_required_argument_handled (r : MCPRequest) (fs : FS)
    (t : String) (a : Args)
    (hm : r.method = "tools/call") (hp : r.params = some ⟨some t, some a⟩)
    (hmiss : requiredMissing t a) :
    ∃ fr : FileResult, fr.success = false ∧ fr.data = none
      ∧ ((process_request r fs).1).result = some (RpcResult.contentR fr)
      ∧ ((process_request r fs).1).error = none
      ∧ (httpCallTool r fs).1 = (process_request r fs).1 := by
  obtain ⟨j, i, m, ps⟩ := r
  replace hm : m = "tools/call" := hm
  replace hp : ps = some ⟨some t, some a⟩ := hp
  subst hm
  subst hp
  have hsplit : ∃ fr : FileResult, ∃ fs2 : FS,
      stdioToolDispatch fs t a = Except.ok (fr, fs2)
      ∧ fr.success = false ∧ fr.data = none := by
    rcases hmiss with ⟨ht, hf⟩ | ⟨ht, hf⟩ | ⟨ht, hf⟩ | ⟨ht, hf⟩ | ⟨ht, hf⟩ |
        ⟨ht, hf⟩ | ⟨ht, hf⟩ <;> subst ht
    · refine ⟨(read_file fs a.filepath).1, (read_file fs a.filepath).2, rfl, ?_⟩
      rw [hf]
      exact read_file_missing fs
    · exact ⟨(write_file fs a.filepath a.content).1,
        (write_file fs a.filepath a.content).2, rfl,
        write_file_missing fs a.filepath a.content hf⟩
    · exact ⟨(append_file fs a.filepath a.content).1,
        (append_file fs a.filepath a.content).2, rfl,
        append_file_missing fs a.filepath a.content hf⟩
    · exact ⟨(update_file fs a.filepath a.find a.replace).1,
        (update_file fs a.filepath a.find a.replace).2, rfl,
        update_file_missing fs a.filepath a.find a.replace hf⟩
    · refine ⟨(delete_file fs a.filepath).1, (delete_file fs a.filepath).2, rfl, ?_⟩
      rw [hf]
      exact delete_file_missing fs
    · refine ⟨(list_files fs a.dirpath).1, (list_files fs a.dirpath).2, rfl, ?_⟩
      rw [hf]
      exact list_files_missing fs
    · refine ⟨(create_directory fs a.dirpath).1, (create_directory fs a.dirpath).2,
        rfl, ?_⟩
      rw [hf]
      exact create_directory_missing fs
  obtain ⟨fr, fs2, hdis, hsucc, hdata⟩ := hsplit
  have hcore : stdioCallToolCore fs (some ⟨some t, some a⟩) = Except.ok (fr, fs2) := by
    simp [stdioCallToolCore, hdis]
  refine ⟨fr, hsucc, hdata, ?_, ?_, rfl⟩
  · simp [process_request, hcore]
  · simp [process_request, hcore]

/-- C10 witness: `read_file` invoked with an empty arguments mapping. -/
theorem missing_required_argument_handled_witness :
    ∃ fr : FileResult, fr.success = false ∧ fr.data = none
      ∧ ((process_request ⟨"2.0", none, "tools/call",
            some ⟨some "read_file", some emptyArgs⟩⟩ fs0).1).result
          = some (RpcResult.contentR fr)
      ∧ ((process_request ⟨"2.0", none, "tools/call",
            some ⟨some "read_file", some emptyArgs⟩⟩ fs0).1).error = none
      ∧ (httpCallTool ⟨"2.0", none, "tools/call",
            some ⟨some "read_file", some emptyArgs⟩⟩ fs0).1
          = (process_request ⟨"2.0", none, "tools/call",
              some ⟨some "read_file", some emptyArgs⟩⟩ fs0).1 :=
  missing_required_argument_handled _ fs0 "read_file" emptyArgs rfl rfl
    (Or.inl ⟨rfl, rfl⟩)
